import Mathlib

/-!
Verification of `commit_generator.py`, a small linear pipeline that reads a
staged git diff, asks a remote text-generation service for a commit message,
combines it with an optional prefix, copies it to the clipboard, asks for
confirmation and finally commits.

The embedding is shallow: every subprocess / network / console interaction is
recorded as an `Effect` in the trace returned by the modelled function, and
the outcomes of the external world (diff subprocess result, generation
outcome, clipboard success, user input, commit success) are inputs packaged
in an `Env` value.
-/

namespace CommitGen

/-- Observable side effects of the program, in order of occurrence. -/
inductive Effect where
  | printMsg (s : String)
  | runDiff
  | networkCall (prompt : String)
  | clipboardWrite (s : String)
  | readInput
  | runCommit (msg : String)
  | exitProcess (code : Nat)
  | uncaughtException
  deriving DecidableEq, Repr

/-- Outcome of running `git diff --staged ...` as a subprocess:
whether it exited 0, its captured standard output, and the text of the
`CalledProcessError` raised on nonzero exit. -/
structure DiffProcResult where
  exitOk : Bool
  stdout : String
  errText : String
  deriving DecidableEq, Repr

/-- Outcome of the single `client.chat.completions.create` call:
either the raw text of the first completion, or an exception. -/
inductive GenOutcome where
  | success (content : String)
  | failure (errMsg : String)
  deriving DecidableEq, Repr

/-- The external world a single run interacts with. -/
structure Env where
  diffResult : DiffProcResult
  genOutcome : GenOutcome
  argv : List String
  clipboardOk : Bool
  userInput : String
  commitOk : Bool
  deriving DecidableEq, Repr

/-- Drop leading whitespace characters from a character list. -/
def dropLeadingWs : List Char → List Char
  | [] => []
  | c :: cs => if c.isWhitespace then dropLeadingWs cs else c :: cs

/-- Python's `str.strip()`: remove leading and trailing whitespace. -/
def strip (s : String) : String :=
  ⟨((dropLeadingWs s.data).reverse |> dropLeadingWs).reverse⟩

/-- Python's `str.lower()` (at ASCII fidelity): lowercase every character. -/
def lower (s : String) : String :=
  ⟨s.data.map Char.toLower⟩

/-- `get_git_diff`: runs the staged-diff subprocess with `check=True`.
On exit 0 it returns `result.stdout.strip()`; on nonzero exit the
`CalledProcessError` is caught, its text printed, and `""` returned. -/
def get_git_diff (r : DiffProcResult) : String × List Effect :=
  if r.exitOk then
    (strip r.stdout, [Effect.runDiff])
  else
    ("", [Effect.runDiff,
          Effect.printMsg ("Error obtaining diffs: " ++ r.errText)])

/-- The fixed instructional template wrapped around the diff
(the f-string at lines 62-68 of `commit_generator.py`). -/
def build_prompt (diff : String) : String :=
  "You are an assistant that generates clear and concise commit messages following GitHub standards.\nYou not only describe what was done, but also identify the changes and the affected files. The commit message must be in English.\n\nGenerate a commit message for the following diff:\n\n"
    ++ diff ++ "\n"

/-- `generate_commit_message`: returns `"No changes found."` for an empty
diff without any request; otherwise issues one request and either returns
the first completion's text stripped (with a fallback when that is empty)
or, if the call raised, prints a diagnostic and returns the error fallback. -/
def generate_commit_message (diff : String) (o : GenOutcome) :
    String × List Effect :=
  if diff = "" then
    ("No changes found.", [])
  else
    match o with
    | GenOutcome.success content =>
        let commit_message := strip content
        (if commit_message = "" then "Failed to generate a commit message."
         else commit_message,
         [Effect.networkCall (build_prompt diff)])
    | GenOutcome.failure e =>
        ("Error generating commit message.",
         [Effect.networkCall (build_prompt diff),
          Effect.printMsg ("Error generating commit message: " ++ e)])

/-- `make_git_commit`: runs `git commit -m message`; prints a success
notice on exit 0 and the caught error text otherwise. -/
def make_git_commit (message : String) (ok : Bool) : List Effect :=
  if ok then
    [Effect.runCommit message, Effect.printMsg "Commit successfully made."]
  else
    [Effect.runCommit message,
     Effect.printMsg "Error performing commit."]

/-- The combination of the prefix and the generated message
(lines 126-129 of `main`): `f"\x7bcommit_prefix\x7d\t\x7bgenerated_commit_message\x7d"`
when the prefix is non-empty, the generated message unchanged otherwise. -/
def assemble (generated : String) (pfx : String) : String :=
  if pfx ≠ "" then pfx ++ "\t" ++ generated else generated

/-- `" ".join(sys.argv[1:])` — `env.argv` models `sys.argv[1:]`.
(When `argv` is empty the join of the empty list is also `""`, matching the
`len(sys.argv) > 1` guard.) -/
def commit_pfx (env : Env) : String :=
  String.intercalate " " env.argv

/-- The `final_commit_message` local of `main`. -/
def final_commit_message (env : Env) : String :=
  assemble (generate_commit_message (get_git_diff env.diffResult).1
              env.genOutcome).1
    (commit_pfx env)

/-- `main`: the whole pipeline as a trace of effects. The unguarded
`pyperclip.copy` call is modelled faithfully: when the clipboard write
fails its exception propagates and the run ends with `uncaughtException`. -/
def main (env : Env) : List Effect :=
  let d := get_git_diff env.diffResult
  if d.1 = "" then
    d.2 ++ [Effect.printMsg "No changes to commit."]
  else
    let g := generate_commit_message d.1 env.genOutcome
    let final := assemble g.1 (commit_pfx env)
    if env.clipboardOk then
      d.2 ++ g.2 ++
        [Effect.clipboardWrite final,
         Effect.printMsg "Commit message copied to clipboard.",
         Effect.printMsg "Generated commit message:",
         Effect.printMsg final,
         Effect.readInput] ++
        (if lower (strip env.userInput) = "y" then
           make_git_commit final env.commitOk
         else
           [Effect.printMsg "Commit cancelled."])
    else
      d.2 ++ g.2 ++ [Effect.uncaughtException]

/-- The module-level startup (lines 29-37): load the credential; if it is
absent or empty, print a diagnostic and `exit(1)`; otherwise run `main`. -/
def program (apiKey : Option String) (env : Env) : List Effect :=
  match apiKey with
  | none =>
      [Effect.printMsg "OpenAI API Key not found. Please ensure it is configured in the .env file.",
       Effect.exitProcess 1]
  | some k =>
      if k = "" then
        [Effect.printMsg "OpenAI API Key not found. Please ensure it is configured in the .env file.",
         Effect.exitProcess 1]
      else
        main env

/-- Split a character list at the first tab: everything before it and
everything after it. -/
def splitTabList (l : List Char) : List Char × List Char :=
  match l with
  | [] => ([], [])
  | c :: rest =>
      if c = '\t' then ([], rest)
      else
        let q := splitTabList rest
        (c :: q.1, q.2)

/-- Split a string at its first tab character. -/
def splitFirstTab (s : String) : String × String :=
  (⟨(splitTabList s.data).1⟩, ⟨(splitTabList s.data).2⟩)

theorem splitTabList_append (p r : List Char) (h : '\t' ∉ p) :
    splitTabList (p ++ '\t' :: r) = (p, r) := by
  induction p with
  | nil => simp [splitTabList]
  | cons c cs ih =>
      simp only [List.mem_cons, not_or] at h
      have hc : ¬ c = '\t' := fun hcc => h.1 hcc.symm
      simp [splitTabList, hc, ih h.2]

theorem assemble_data (g p : String) (hp : p ≠ "") :
    (assemble g p).data = p.data ++ '\t' :: g.data := by
  have ht : ("\t" : String).data = ['\t'] := rfl
  simp [assemble, hp, String.data_append, ht]

theorem networkCall_not_in_diff_effects (r : DiffProcResult) (p : String) :
    Effect.networkCall p ∉ (get_git_diff r).2 := by
  unfold get_git_diff; split <;> simp

theorem runCommit_not_in_diff_effects (r : DiffProcResult) (m : String) :
    Effect.runCommit m ∉ (get_git_diff r).2 := by
  unfold get_git_diff; split <;> simp

theorem runCommit_not_in_gen_effects (d : String) (o : GenOutcome)
    (m : String) : Effect.runCommit m ∉ (generate_commit_message d o).2 := by
  unfold generate_commit_message
  split
  · simp
  · cases o <;> simp

theorem generated_nonempty (d : String) (o : GenOutcome) :
    (generate_commit_message d o).1 ≠ "" := by
  cases o with
  | success content =>
      by_cases hd : d = "" <;> by_cases hs : strip content = "" <;>
        simp [generate_commit_message, hd, hs]
  | failure e =>
      by_cases hd : d = "" <;> simp [generate_commit_message, hd]

theorem assemble_nonempty (g p : String) (hg : g ≠ "") :
    assemble g p ≠ "" := by
  unfold assemble
  split
  · intro hcontra
    have hdata := congrArg String.data hcontra
    have ht : ("\t" : String).data = ['\t'] := rfl
    simp [String.data_append, ht] at hdata
  · exact hg

/-- Environment in which the staged-diff subprocess fails, so the collected
diff is empty. -/
def env_no_changes : Env :=
  { diffResult := { exitOk := false, stdout := "", errText := "exit status 128" },
    genOutcome := GenOutcome.success "msg", argv := [],
    clipboardOk := true, userInput := "y", commitOk := true }

/-- Environment with a non-empty staged diff and an affirmative answer that
needs both trimming and lowercasing. -/
def env_confirm_yes : Env :=
  { diffResult := { exitOk := true, stdout := " some diff ", errText := "" },
    genOutcome := GenOutcome.success " Add a line ", argv := [],
    clipboardOk := true, userInput := "  Y ", commitOk := true }

/-- Environment with a non-empty staged diff and a negative answer. -/
def env_confirm_no : Env :=
  { diffResult := { exitOk := true, stdout := "some diff", errText := "" },
    genOutcome := GenOutcome.success "Add a line", argv := [],
    clipboardOk := true, userInput := "n", commitOk := true }

/-- Environment in which the clipboard write raises. -/
def env_clip_fail : Env :=
  { diffResult := { exitOk := true, stdout := "diff text", errText := "" },
    genOutcome := GenOutcome.success "Add feature", argv := [],
    clipboardOk := false, userInput := "y", commitOk := true }

/-- Environment in which the generation request raises. -/
def env_gen_fail : Env :=
  { diffResult := { exitOk := true, stdout := "diff text", errText := "" },
    genOutcome := GenOutcome.failure "connection error", argv := ["fix:"],
    clipboardOk := true, userInput := "y", commitOk := true }

/-- C1: when the collected diff is the empty string, the run short-circuits:
its trace contains no request to the generation service (so no prompt is
sent anywhere) and no commit invocation. -/
theorem C1_empty_diff_short_circuit (env : Env)
    (h : (get_git_diff env.diffResult).1 = "") :
    (∀ p, Effect.networkCall p ∉ main env) ∧
    (∀ m, Effect.runCommit m ∉ main env) := by
  refine ⟨fun p => ?_, fun m => ?_⟩ <;>
    simp only [main, h, if_pos, List.mem_append, List.mem_singleton, not_or] <;>
    refine ⟨?_, by simp⟩
  · exact networkCall_not_in_diff_effects _ _
  · exact runCommit_not_in_diff_effects _ _

/-- C1 witness: a concrete run whose diff collection fails (empty diff)
issues no generation request and no commit. -/
theorem C1_witness :
    Effect.networkCall (build_prompt "x") ∉ main env_no_changes ∧
    Effect.runCommit "x" ∉ main env_no_changes :=
  ⟨(C1_empty_diff_short_circuit env_no_changes (by decide)).1 _,
   (C1_empty_diff_short_circuit env_no_changes (by decide)).2 _⟩

/-- C2: in a run that reaches the confirmation prompt (non-empty diff,
clipboard write succeeded), a commit is invoked iff the entered line,
stripped and lowercased, equals "y"; for any other input no commit happens
and a cancellation notice is printed. -/
theorem C2_confirmation_gate (env : Env)
    (hd : (get_git_diff env.diffResult).1 ≠ "")
    (hc : env.clipboardOk = true) :
    ((∃ m, Effect.runCommit m ∈ main env) ↔ lower (strip env.userInput) = "y")
    ∧ (lower (strip env.userInput) ≠ "y" →
        Effect.printMsg "Commit cancelled." ∈ main env ∧
        ∀ m, Effect.runCommit m ∉ main env) := by
  by_cases hy : lower (strip env.userInput) = "y"
  · refine ⟨⟨fun _ => hy, fun _ => ?_⟩, fun hn => absurd hy hn⟩
    refine ⟨final_commit_message env, ?_⟩
    cases hok : env.commitOk <;>
      simp [main, hd, hc, hy, hok, make_git_commit, final_commit_message,
        List.mem_append]
  · have hnone : ∀ m, Effect.runCommit m ∉ main env := by
      intro m hm
      have h1 := runCommit_not_in_diff_effects env.diffResult m
      have h2 := runCommit_not_in_gen_effects (get_git_diff env.diffResult).1
        env.genOutcome m
      simp [main, hd, hc, hy, List.mem_append] at hm
      rcases hm with hm | hm
      · exact h1 hm
      · exact h2 hm
    refine ⟨⟨fun ⟨m, hm⟩ => absurd hm (hnone m), fun h => absurd h hy⟩,
      fun _ => ⟨?_, hnone⟩⟩
    simp [main, hd, hc, hy, List.mem_append]

/-- C2 witness: input "  Y " (needs trimming and lowering) leads to a
commit; input "n" leads to cancellation and no commit. -/
theorem C2_witness :
    lower (strip env_confirm_yes.userInput) = "y" ∧
    Effect.printMsg "Commit cancelled." ∈ main env_confirm_no ∧
    Effect.runCommit "Add a line" ∉ main env_confirm_no := by
  have hno := (C2_confirmation_gate env_confirm_no (by decide) (by decide)).2
    (by decide)
  exact ⟨by decide, hno.1, hno.2 _⟩

/-- C3 counterexample: in a concrete run with a non-empty diff, an
affirmative user, and a failing clipboard write, the pipeline does NOT
continue: the message is never displayed for confirmation, no input is
read, no commit happens — the run ends in an uncaught exception. This
refutes the claim that a clipboard failure never aborts the flow. -/
theorem C3_counterexample :
    env_clip_fail.clipboardOk = false ∧
    lower (strip env_clip_fail.userInput) = "y" ∧
    Effect.readInput ∉ main env_clip_fail ∧
    Effect.runCommit (final_commit_message env_clip_fail) ∉ main env_clip_fail ∧
    Effect.uncaughtException ∈ main env_clip_fail := by decide

/-- C3 amended: the clipboard write is unguarded. If it fails, the
exception propagates: the run ends right after the diff and generation
effects with an uncaught exception (no display, no confirmation read, no
commit). Only when the clipboard write succeeds does the pipeline continue
to display the message and read the confirmation. -/
theorem C3_clipboard_behavior (env : Env)
    (hd : (get_git_diff env.diffResult).1 ≠ "") :
    (env.clipboardOk = false →
        main env = (get_git_diff env.diffResult).2 ++
          (generate_commit_message (get_git_diff env.diffResult).1
            env.genOutcome).2 ++ [Effect.uncaughtException]) ∧
    (env.clipboardOk = true →
        Effect.clipboardWrite (final_commit_message env) ∈ main env ∧
        Effect.readInput ∈ main env) := by
  constructor <;> intro hc
  · simp [main, hd, hc]
  · constructor <;>
      simp [main, hd, hc, final_commit_message, List.mem_append]

/-- C3 witness: a concrete aborted run and a concrete continuing run. -/
theorem C3_witness :
    main env_clip_fail = (get_git_diff env_clip_fail.diffResult).2 ++
      (generate_commit_message (get_git_diff env_clip_fail.diffResult).1
        env_clip_fail.genOutcome).2 ++ [Effect.uncaughtException] ∧
    Effect.readInput ∈ main env_confirm_yes := by
  refine ⟨(C3_clipboard_behavior env_clip_fail (by decide)).1 rfl, ?_⟩
  exact ((C3_clipboard_behavior env_confirm_yes (by decide)).2 rfl).2

/-- C4 counterexample: two different (generated, prefix) pairs, both with a
non-empty prefix, assemble to the same FinalMessage, so the original parts
are not in general recoverable around the separator. -/
theorem C4_counterexample :
    assemble "c" "a\tb" = assemble "b\tc" "a" ∧
    ("a\tb" : String) ≠ "" ∧ ("a" : String) ≠ "" ∧
    (("c" : String), ("a\tb" : String)) ≠ (("b\tc" : String), ("a" : String)) := by
  decide

/-- C4 amended: assembly is a deterministic total function; empty prefix is
the identity; a non-empty prefix yields exactly prefix, one tab, generated
message; and both parts are recoverable by splitting at the first tab
provided the prefix itself contains no tab character. -/
theorem C4_assemble_spec (g p : String) :
    (p = "" → assemble g p = g) ∧
    (p ≠ "" →
        (assemble g p).data = p.data ++ '\t' :: g.data ∧
        ('\t' ∉ p.data → splitFirstTab (assemble g p) = (p, g))) := by
  constructor
  · intro hp
    simp [assemble, hp]
  · intro hp
    have hdata := assemble_data g p hp
    refine ⟨hdata, fun hnt => ?_⟩
    have hsplit := splitTabList_append p.data g.data hnt
    simp [splitFirstTab, hdata, hsplit]

/-- C4 witness: identity on the empty prefix, and a concrete round trip
through the first-tab split for a tab-free prefix. -/
theorem C4_witness :
    assemble "Adjust session timeout handling" "" =
      "Adjust session timeout handling" ∧
    splitFirstTab (assemble "Adjust session timeout handling" "fix: login bug")
      = ("fix: login bug", "Adjust session timeout handling") := by
  refine ⟨(C4_assemble_spec "Adjust session timeout handling" "").1 rfl, ?_⟩
  exact ((C4_assemble_spec "Adjust session timeout handling"
    "fix: login bug").2 (by decide)).2 (by decide)

/-- C5: for a non-empty diff, if the generation request raises, the
generator prints a diagnostic and returns the literal fallback
"Error generating commit message."; the pipeline (clipboard permitting)
still reaches the confirmation read, with the fallback as the displayed
message. -/
theorem C5_generation_failure_fallback (env : Env) (e : String)
    (hd : (get_git_diff env.diffResult).1 ≠ "")
    (hg : env.genOutcome = GenOutcome.failure e)
    (hc : env.clipboardOk = true) :
    (generate_commit_message (get_git_diff env.diffResult).1 env.genOutcome).1
        = "Error generating commit message." ∧
    Effect.printMsg ("Error generating commit message: " ++ e)
        ∈ (generate_commit_message (get_git_diff env.diffResult).1
            env.genOutcome).2 ∧
    Effect.readInput ∈ main env ∧
    Effect.printMsg (assemble "Error generating commit message."
        (commit_pfx env)) ∈ main env := by
  have hgen : generate_commit_message (get_git_diff env.diffResult).1
      env.genOutcome =
      ("Error generating commit message.",
       [Effect.networkCall (build_prompt (get_git_diff env.diffResult).1),
        Effect.printMsg ("Error generating commit message: " ++ e)]) := by
    simp [generate_commit_message, hd, hg]
  refine ⟨by simp [hgen], by simp [hgen], ?_, ?_⟩ <;>
    simp [main, hd, hc, hgen, List.mem_append]

/-- C5 witness: a concrete failed generation run returns the fallback and
still reaches the confirmation read. -/
theorem C5_witness :
    (generate_commit_message (get_git_diff env_gen_fail.diffResult).1
        env_gen_fail.genOutcome).1 = "Error generating commit message." ∧
    Effect.readInput ∈ main env_gen_fail := by
  have h := C5_generation_failure_fallback env_gen_fail "connection error"
    (by decide) rfl rfl
  exact ⟨h.1, h.2.2.1⟩

/-- C6: for a non-empty diff, a successful generation returns the first
completion's text stripped of surrounding whitespace; when that stripped
text is empty it returns the literal fallback
"Failed to generate a commit message." instead. -/
theorem C6_generation_success (diff content : String) (hd : diff ≠ "") :
    (strip content ≠ "" →
        (generate_commit_message diff (GenOutcome.success content)).1
          = strip content) ∧
    (strip content = "" →
        (generate_commit_message diff (GenOutcome.success content)).1
          = "Failed to generate a commit message.") := by
  constructor <;> intro hs <;> simp [generate_commit_message, hd, hs]

/-- C6 witness: a padded completion is stripped; a whitespace-only
completion yields the fallback. -/
theorem C6_witness :
    (generate_commit_message "d" (GenOutcome.success "  Add tests  ")).1
      = "Add tests" ∧
    (generate_commit_message "d" (GenOutcome.success "   ")).1
      = "Failed to generate a commit message." := by
  constructor
  · have h := (C6_generation_success "d" "  Add tests  " (by decide)).1
      (by decide)
    rw [h]; decide
  · exact (C6_generation_success "d" "   " (by decide)).2 (by decide)

/-- C7: the diff collector returns the subprocess's standard output
stripped of surrounding whitespace; on a non-zero exit it prints the error
text and returns the empty string instead of raising. -/
theorem C7_get_git_diff_spec (r : DiffProcResult) :
    (r.exitOk = true → (get_git_diff r).1 = strip r.stdout) ∧
    (r.exitOk = false →
        (get_git_diff r).1 = "" ∧
        Effect.printMsg ("Error obtaining diffs: " ++ r.errText)
          ∈ (get_git_diff r).2) := by
  constructor <;> intro h <;> simp [get_git_diff, h]

/-- C7 witness: a successful run strips the output; a failed run yields the
empty diff and prints the error text. -/
theorem C7_witness :
    (get_git_diff { exitOk := true, stdout := " out ", errText := "" }).1
      = "out" ∧
    (get_git_diff env_no_changes.diffResult).1 = "" ∧
    Effect.printMsg ("Error obtaining diffs: " ++ "exit status 128")
      ∈ (get_git_diff env_no_changes.diffResult).2 := by
  refine ⟨?_, ?_, ?_⟩
  · have h := (C7_get_git_diff_spec
      { exitOk := true, stdout := " out ", errText := "" }).1 rfl
    rw [h]; decide
  · exact ((C7_get_git_diff_spec env_no_changes.diffResult).2 rfl).1
  · exact ((C7_get_git_diff_spec env_no_changes.diffResult).2 rfl).2

/-- C8: when the credential is absent at startup, the trace is exactly a
diagnostic print followed by exit code 1 — no diff subprocess, no
generation request, no commit, no clipboard write. -/
theorem C8_missing_api_key (apiKey : Option String) (env : Env)
    (h : apiKey = none) :
    program apiKey env =
      [Effect.printMsg "OpenAI API Key not found. Please ensure it is configured in the .env file.",
       Effect.exitProcess 1] ∧
    Effect.runDiff ∉ program apiKey env ∧
    (∀ p, Effect.networkCall p ∉ program apiKey env) ∧
    (∀ m, Effect.runCommit m ∉ program apiKey env) ∧
    (∀ s, Effect.clipboardWrite s ∉ program apiKey env) := by
  subst h
  exact ⟨rfl, by simp [program], fun p => by simp [program],
    fun m => by simp [program], fun s => by simp [program]⟩

/-- C8 witness: the concrete missing-credential trace. -/
theorem C8_witness :
    program none env_confirm_yes =
      [Effect.printMsg "OpenAI API Key not found. Please ensure it is configured in the .env file.",
       Effect.exitProcess 1] ∧
    Effect.runDiff ∉ program none env_confirm_yes ∧
    Effect.runCommit "Add a line" ∉ program none env_confirm_yes := by
  have h := C8_missing_api_key none env_confirm_yes rfl
  exact ⟨h.1, h.2.1, h.2.2.2.1 _⟩

/-- C9: whenever the diff is non-empty (so the run can reach the
confirmation prompt), the assembled FinalMessage is a non-empty string,
whatever the generation outcome and whatever the prefix. -/
theorem C9_final_message_nonempty (env : Env)
    (hd : (get_git_diff env.diffResult).1 ≠ "") :
    final_commit_message env ≠ "" := by
  unfold final_commit_message
  exact assemble_nonempty _ _
    (generated_nonempty (get_git_diff env.diffResult).1 env.genOutcome)

/-- C9 witness: the final message of a concrete failed-generation run with
a prefix is non-empty. -/
theorem C9_witness :
    final_commit_message env_gen_fail ≠ "" :=
  C9_final_message_nonempty env_gen_fail (by decide)

/-- C10: for a non-empty prefix the assembled message is exactly the
prefix, one tab character, and the generated message — character for
character, nothing else inserted. -/
theorem C10_separator_is_tab (g p : String) (hp : p ≠ "") :
    (assemble g p).data = p.data ++ '\t' :: g.data :=
  assemble_data g p hp

/-- C10 witness: a concrete assembly with the tab separator. -/
theorem C10_witness :
    (assemble "Adjust session timeout handling" "fix: login bug").data
      = ("fix: login bug" : String).data ++ '\t'
        :: ("Adjust session timeout handling" : String).data :=
  C10_separator_is_tab "Adjust session timeout handling" "fix: login bug"
    (by decide)

end CommitGen
